import Mathlib

/-!
Verification of the combat simulation core of the Death Circuit arena
shooter (player/enemy damage model, weapon state machine, projectile
lifecycle, collision resolution, spawn search, and the sniper AI
decision cycle).

Real-number quantities of the source (positions, velocities, timers)
are modelled as real numbers; Python integers are modelled as integers.
Random values drawn inside a function are passed in as explicit
parameters.  Angles produced by math.atan2(y, x) are modelled with the
complex argument of x + y*i, which has the same value and range.
-/

namespace DeathCircuit

/-! Constants from config.py (only the ones the verified code reads). -/

def SCREEN_WIDTH : ℝ := 1280
def SCREEN_HEIGHT : ℝ := 720
def BULLET_SIZE : ℝ := 4
def BULLET_LIFETIME : ℝ := 3
def BULLET_TRAIL_LENGTH : ℕ := 5
noncomputable def COLLISION_EPSILON : ℝ := 1/10
def MAX_BULLETS_ON_SCREEN : ℕ := 500
def SHOTGUN_PELLETS : ℕ := 8
def SNIPER_PREFERRED_RANGE : ℝ := 400
def SNIPER_RETREAT_RANGE : ℝ := 300
def ENEMY_BASE_HEALTH : ℤ := 40
noncomputable def PLAYER_INVINCIBILITY_DURATION : ℝ := 1/10
noncomputable def SCREEN_SHAKE_DURATION : ℝ := 1/5
def SCREEN_SHAKE_INTENSITY : ℤ := 2
def ENEMY_SPAWN_INVINCIBILITY : ℝ := 1

/-! Geometry utilities, from utils.py. -/

/-- utils.distance: Euclidean distance between two points. -/
noncomputable def distance (pos1 pos2 : ℝ × ℝ) : ℝ :=
  Real.sqrt ((pos2.1 - pos1.1) * (pos2.1 - pos1.1) + (pos2.2 - pos1.2) * (pos2.2 - pos1.2))

/-- utils.clamp: clamp a value between min and max. -/
noncomputable def clamp (value min_val max_val : ℝ) : ℝ :=
  max min_val (min value max_val)

/-- utils.normalize_vector: scale a vector to unit length, zero vector maps to zero. -/
noncomputable def normalize_vector (vec : ℝ × ℝ) : ℝ × ℝ :=
  let length := Real.sqrt (vec.1 * vec.1 + vec.2 * vec.2)
  if length = 0 then (0, 0) else (vec.1 / length, vec.2 / length)

/-- math.atan2(y, x), modelled as the complex argument of x + y*i. -/
noncomputable def atan2 (y x : ℝ) : ℝ := Complex.arg ⟨x, y⟩

/-- utils.vector_from_angle: vector with the given angle and length. -/
noncomputable def vector_from_angle (angle length : ℝ) : ℝ × ℝ :=
  (Real.cos angle * length, Real.sin angle * length)

/-- A pygame.Rect with real coordinates: stored as x, y, width, height. -/
structure Rect where
  x : ℝ
  y : ℝ
  w : ℝ
  h : ℝ

def Rect.left (r : Rect) : ℝ := r.x
def Rect.top (r : Rect) : ℝ := r.y
def Rect.right (r : Rect) : ℝ := r.x + r.w
def Rect.bottom (r : Rect) : ℝ := r.y + r.h

/-- utils.circle_rect_collision: the circle touches the rectangle iff the
distance from the centre to the closest point of the rectangle is at most
the radius. -/
noncomputable def circle_rect_collision (circle_pos : ℝ × ℝ) (circle_radius : ℝ)
    (rect : Rect) : Prop :=
  let closest_x := clamp circle_pos.1 rect.left rect.right
  let closest_y := clamp circle_pos.2 rect.top rect.bottom
  distance circle_pos (closest_x, closest_y) ≤ circle_radius

/-- utils.line_intersects_line: proper segment intersection test; parallel
segments (zero determinant) report no intersection. -/
def line_intersects_line (p1 p2 p3 p4 : ℝ × ℝ) : Prop :=
  let det := (p2.1 - p1.1) * (p4.2 - p3.2) - (p2.2 - p1.2) * (p4.1 - p3.1)
  det ≠ 0 ∧
    (let t := ((p3.1 - p1.1) * (p4.2 - p3.2) - (p3.2 - p1.2) * (p4.1 - p3.1)) / det
     let u := ((p3.1 - p1.1) * (p2.2 - p1.2) - (p3.2 - p1.2) * (p2.1 - p1.1)) / det
     0 ≤ t ∧ t ≤ 1 ∧ 0 ≤ u ∧ u ≤ 1)

/-- pygame.Rect.collidepoint: point containment, half-open on right/bottom. -/
def Rect.collidepoint (r : Rect) (px py : ℝ) : Prop :=
  r.left ≤ px ∧ px < r.right ∧ r.top ≤ py ∧ py < r.bottom

/-- utils.line_intersects_rect: an endpoint lies inside the rectangle, or
the segment crosses one of the four edges. -/
def line_intersects_rect (line_start line_end : ℝ × ℝ) (rect : Rect) : Prop :=
  rect.collidepoint line_start.1 line_start.2 ∨ rect.collidepoint line_end.1 line_end.2 ∨
  line_intersects_line line_start line_end (rect.left, rect.top) (rect.right, rect.top) ∨
  line_intersects_line line_start line_end (rect.right, rect.top) (rect.right, rect.bottom) ∨
  line_intersects_line line_start line_end (rect.right, rect.bottom) (rect.left, rect.bottom) ∨
  line_intersects_line line_start line_end (rect.left, rect.bottom) (rect.left, rect.top)

/-- utils.line_of_sight: no wall rectangle intersects the segment (the
early return for an empty wall list in the source coincides with the
vacuous case of this quantification). -/
def line_of_sight (a b : ℝ × ℝ) (walls : List Rect) : Prop :=
  ∀ wall ∈ walls, ¬ line_intersects_rect a b wall

/-! Collision resolver, from collision.py (CollisionManager). -/

/-- CollisionManager.check_entity_wall_collision: the circle overlaps some wall. -/
noncomputable def check_entity_wall_collision (walls : List Rect)
    (entity_pos : ℝ × ℝ) (entity_radius : ℝ) : Prop :=
  ∃ wall ∈ walls, circle_rect_collision entity_pos entity_radius wall

/-- CollisionManager.check_entity_entity_collision: two circles overlap. -/
noncomputable def check_entity_entity_collision (entity1_pos : ℝ × ℝ) (entity1_radius : ℝ)
    (entity2_pos : ℝ × ℝ) (entity2_radius : ℝ) : Prop :=
  distance entity1_pos entity2_pos < entity1_radius + entity2_radius

open scoped Classical in
/-- CollisionManager.resolve_entity_entity_collision: push two overlapping
circles apart by half the penetration each; return the inputs unchanged
when the circles do not overlap or the centres coincide. -/
noncomputable def resolve_entity_entity_collision (entity1_pos : ℝ × ℝ) (entity1_radius : ℝ)
    (entity2_pos : ℝ × ℝ) (entity2_radius : ℝ) : (ℝ × ℝ) × (ℝ × ℝ) :=
  let d := distance entity1_pos entity2_pos
  let min_dist := entity1_radius + entity2_radius
  if d < min_dist ∧ 0 < d then
    let dx := (entity1_pos.1 - entity2_pos.1) / d
    let dy := (entity1_pos.2 - entity2_pos.2) / d
    let overlap := min_dist - d
    let push_distance := overlap / 2
    ((entity1_pos.1 + dx * push_distance, entity1_pos.2 + dy * push_distance),
     (entity2_pos.1 - dx * push_distance, entity2_pos.2 - dy * push_distance))
  else
    (entity1_pos, entity2_pos)

open scoped Classical in
/-- CollisionManager.is_position_valid: inside the screen bounds and
overlapping no wall. -/
noncomputable def is_position_valid (walls : List Rect) (pos : ℝ × ℝ) (radius : ℝ) : Bool :=
  if pos.1 - radius < 0 ∨ pos.1 + radius > SCREEN_WIDTH ∨
      pos.2 - radius < 0 ∨ pos.2 + radius > SCREEN_HEIGHT then
    false
  else if check_entity_wall_collision walls pos radius then
    false
  else
    true

/-- Result of running a Python function that can raise an exception. -/
inductive PyResult (α : Type) where
  | ok (val : α)
  | exn (msg : String)
deriving DecidableEq

open scoped Classical in
/-- CollisionManager.find_valid_spawn_position.  The source returns the
preferred position when it is valid.  Otherwise its expanding-ring loop
evaluates math.pi and math.cos, but collision.py never imports math, so
the first loop iteration raises NameError whenever max_attempts is
positive; the random-sampling fallback and the screen-centre fallback
(reached here only when max_attempts is zero, where both loops run zero
iterations) are unreachable behind the raise. -/
noncomputable def find_valid_spawn_position (walls : List Rect)
    (preferred_pos : ℝ × ℝ) (radius : ℝ) (max_attempts : ℕ) : PyResult (ℝ × ℝ) :=
  if is_position_valid walls preferred_pos radius then
    .ok preferred_pos
  else if 0 < max_attempts then
    .exn "NameError: name math is not defined"
  else
    .ok (SCREEN_WIDTH / 2, SCREEN_HEIGHT / 2)

/-- CollisionManager.check_bullet_wall_collision: the bullet circle
overlaps some wall. -/
noncomputable def check_bullet_wall_collision (walls : List Rect)
    (bullet_pos : ℝ × ℝ) (bullet_radius : ℝ) : Prop :=
  ∃ wall ∈ walls, circle_rect_collision bullet_pos bullet_radius wall

/-! Projectile subsystem, from bullet.py. -/

/-- Bullet state, from Bullet.__init__ (colour and drawing state omitted:
they feed rendering only). -/
structure Bullet where
  pos : ℝ × ℝ
  velocity : ℝ × ℝ
  damage : ℤ
  owner_id : String
  radius : ℝ
  lifetime : ℝ
  max_lifetime : ℝ
  trail_positions : List (ℝ × ℝ)
  alive : Bool
  max_range : ℝ

/-- Bullet.__init__: fresh bullet with full lifetime. -/
noncomputable def mkBullet (pos velocity : ℝ × ℝ) (damage : ℤ) (owner_id : String) : Bullet :=
  { pos := pos
    velocity := velocity
    damage := damage
    owner_id := owner_id
    radius := BULLET_SIZE
    lifetime := BULLET_LIFETIME
    max_lifetime := BULLET_LIFETIME
    trail_positions := []
    alive := true
    max_range := Real.sqrt (velocity.1 ^ 2 + velocity.2 ^ 2) * BULLET_LIFETIME }

/-- The out-of-bounds test of Bullet.update: the position has left the
screen by more than the radius margin. -/
def bullet_out_of_bounds (pos : ℝ × ℝ) (radius : ℝ) : Prop :=
  pos.1 < -radius ∨ pos.1 > SCREEN_WIDTH + radius ∨
  pos.2 < -radius ∨ pos.2 > SCREEN_HEIGHT + radius

open scoped Classical in
/-- Bullet.update: record the trail, integrate the position, decrement the
lifetime, and clear the alive flag when the lifetime reaches zero or the
position leaves the screen by more than the radius margin.  A dead bullet
is left untouched. -/
noncomputable def Bullet.update (b : Bullet) (dt : ℝ) : Bullet :=
  if b.alive = false then b
  else
    let trail0 := b.trail_positions ++ [b.pos]
    let trail := if BULLET_TRAIL_LENGTH < trail0.length then trail0.drop 1 else trail0
    let pos := (b.pos.1 + b.velocity.1 * dt, b.pos.2 + b.velocity.2 * dt)
    let lifetime := b.lifetime - dt
    let alive1 := if lifetime ≤ 0 then false else b.alive
    let alive2 := if bullet_out_of_bounds pos b.radius then false else alive1
    { b with trail_positions := trail, pos := pos, lifetime := lifetime, alive := alive2 }

/-- BulletManager state: the active bullet list and the running counter. -/
structure BulletManager where
  bullets : List Bullet
  bullet_count : ℤ

/-- BulletManager.add_bullet: append the bullet and bump the counter. -/
def BulletManager.add_bullet (m : BulletManager) (b : Bullet) : BulletManager :=
  { bullets := m.bullets ++ [b], bullet_count := m.bullet_count + 1 }

/-- BulletManager.update: step every bullet, then drop the dead ones. -/
noncomputable def BulletManager.update (m : BulletManager) (dt : ℝ) : BulletManager :=
  { m with bullets := (m.bullets.map (Bullet.update · dt)).filter (·.alive) }

/-! Weapon model, from weapon.py. -/

/-- Weapon state, from Weapon.__init__ (colour omitted: rendering only). -/
structure Weapon where
  name : String
  damage : ℤ
  fire_rate : ℝ
  bullet_speed : ℝ
  spread : ℝ
  magazine_size : ℤ
  reload_time : ℝ
  auto_fire : Bool
  ammo : ℤ
  is_reloading : Bool
  reload_timer : ℝ
  fire_timer : ℝ
  fire_cooldown : ℝ
  shots_fired : ℤ
  total_shots_fired : ℤ

/-- Weapon.__init__: a full magazine, no cooldowns running. -/
noncomputable def mkWeapon (name : String) (damage : ℤ) (fire_rate bullet_speed spread : ℝ)
    (magazine_size : ℤ) (reload_time : ℝ) (auto_fire : Bool := false) : Weapon :=
  { name := name
    damage := damage
    fire_rate := fire_rate
    bullet_speed := bullet_speed
    spread := spread
    magazine_size := magazine_size
    reload_time := reload_time
    auto_fire := auto_fire
    ammo := magazine_size
    is_reloading := false
    reload_timer := 0
    fire_timer := 0
    fire_cooldown := 1 / fire_rate
    shots_fired := 0
    total_shots_fired := 0 }

/-- Weapon.can_fire: not reloading, ammo left, and the fire cooldown elapsed. -/
def Weapon.can_fire (w : Weapon) : Prop :=
  ¬ w.is_reloading = true ∧ 0 < w.ammo ∧ w.fire_timer ≤ 0

open scoped Classical in
/-- Weapon.start_reload: begin the reload timer unless already reloading
or the magazine is full. -/
noncomputable def Weapon.start_reload (w : Weapon) : Weapon :=
  if ¬ w.is_reloading = true ∧ w.ammo < w.magazine_size then
    { w with is_reloading := true, reload_timer := w.reload_time }
  else w

/-- Weapon.finish_reload: refill the magazine and stop reloading. -/
def Weapon.finish_reload (w : Weapon) : Weapon :=
  { w with ammo := w.magazine_size, is_reloading := false, reload_timer := 0 }

open scoped Classical in
/-- Weapon.update: tick the fire cooldown, then the reload timer,
auto-completing the reload when its timer elapses. -/
noncomputable def Weapon.update (w : Weapon) (dt : ℝ) : Weapon :=
  let w1 := if 0 < w.fire_timer then { w with fire_timer := w.fire_timer - dt } else w
  if w1.is_reloading = true then
    let w2 := { w1 with reload_timer := w1.reload_timer - dt }
    if w2.reload_timer ≤ 0 then w2.finish_reload else w2
  else w1

open scoped Classical in
/-- Weapon.fire: refuse (returning false and leaving every input intact)
unless can_fire holds; otherwise append one bullet with the spread applied,
spend one round and restart the fire cooldown.  The random spread sample
drawn from uniform(-spread/2, spread/2) is the jitter parameter. -/
noncomputable def Weapon.fire (w : Weapon) (pos : ℝ × ℝ) (direction : ℝ)
    (owner_id : String) (bullets : List Bullet) (jitter : ℝ) :
    Bool × Weapon × List Bullet :=
  if w.can_fire then
    let spread_angle := direction + jitter
    let velocity := vector_from_angle spread_angle w.bullet_speed
    let bullet := mkBullet pos velocity w.damage owner_id
    (true,
     { w with ammo := w.ammo - 1, fire_timer := w.fire_cooldown,
              shots_fired := w.shots_fired + 1,
              total_shots_fired := w.total_shots_fired + 1 },
     bullets ++ [bullet])
  else
    (false, w, bullets)

/-- Shotgun state: the base weapon plus the pellet count from config. -/
structure Shotgun where
  toWeapon : Weapon
  pellets : ℕ

open scoped Classical in
/-- Shotgun.fire: same refusal logic as the base weapon; on success append
one bullet per pellet, fanning the spread across the pellet index, and
spend a single round.  The per-pellet random jitter drawn from
uniform(-0.05, 0.05) is the jitter parameter. -/
noncomputable def Shotgun.fire (s : Shotgun) (pos : ℝ × ℝ) (direction : ℝ)
    (owner_id : String) (bullets : List Bullet) (jitter : ℕ → ℝ) :
    Bool × Shotgun × List Bullet :=
  if s.toWeapon.can_fire then
    let w := s.toWeapon
    let pellets_bullets := (List.range s.pellets).map (fun (i : ℕ) =>
      let pellet_spread := ((i : ℝ) - ((s.pellets / 2 : ℕ) : ℝ)) * (w.spread / (s.pellets : ℝ))
      let spread_angle := direction + pellet_spread + jitter i
      mkBullet pos (vector_from_angle spread_angle w.bullet_speed) w.damage owner_id)
    (true,
     { s with toWeapon :=
        { w with ammo := w.ammo - 1, fire_timer := w.fire_cooldown,
                 shots_fired := w.shots_fired + 1,
                 total_shots_fired := w.total_shots_fired + 1 } },
     bullets ++ pellets_bullets)
  else
    (false, s, bullets)

/-- The ammo invariant of the weapon state machine. -/
def ammo_invariant (w : Weapon) : Prop :=
  0 ≤ w.ammo ∧ w.ammo ≤ w.magazine_size

/-! Combatant damage model, from enemy.py and player.py. -/

/-- Enemy state touched by Enemy.take_damage and Enemy.die (movement,
weapon and drawing state omitted: take_damage never reads or writes them). -/
structure Enemy where
  id : String
  pos : ℝ × ℝ
  radius : ℝ
  max_health : ℤ
  health : ℤ
  alive : Bool
  invincible : Bool
  invincibility_timer : ℝ

/-- A death notification carrying the killer identifier, as passed to
Game.on_enemy_killed by Enemy.die. -/
structure DeathEvent where
  victim : String
  killer : Option String
deriving DecidableEq

/-- Enemy.die: clear the alive flag and notify the game of the death. -/
def Enemy.die (e : Enemy) (killer_id : Option String) : Enemy × DeathEvent :=
  ({ e with alive := false }, { victim := e.id, killer := killer_id })

/-- Enemy.take_damage: ignored while dead or invincible; otherwise
subtract the amount from health (the source never clamps at zero) and
die exactly when the new health is at most zero. -/
def Enemy.take_damage (e : Enemy) (amount : ℤ) (attacker_id : Option String) :
    Enemy × Option DeathEvent :=
  if e.alive = false ∨ e.invincible = true then (e, none)
  else
    let e1 := { e with health := e.health - amount }
    if e1.health ≤ 0 then
      let (e2, ev) := e1.die attacker_id
      (e2, some ev)
    else (e1, none)

/-- Fold a sequence of damage applications over an enemy, collecting every
death notification emitted along the way. -/
def Enemy.take_damage_seq (e : Enemy) : List (ℤ × Option String) → Enemy × List DeathEvent
  | [] => (e, [])
  | (amount, attacker) :: rest =>
    let (e1, ev) := e.take_damage amount attacker
    let (e2, evs) := e1.take_damage_seq rest
    (e2, ev.toList ++ evs)

/-- Player state touched by Player.take_damage (movement, input, weapon
and dash state omitted: take_damage never reads or writes them). -/
structure Player where
  id : String
  pos : ℝ × ℝ
  radius : ℝ
  max_health : ℤ
  health : ℤ
  invincible : Bool
  invincibility_timer : ℝ
  last_damage_time : ℝ
  damage_taken : ℤ
  screen_shake_timer : ℝ
  screen_shake_intensity : ℤ

/-- Player.take_damage: ignored while invincible; otherwise subtract the
amount from health (never clamped at zero), start the post-hit
invincibility window and the screen shake.  The player has no alive flag
and emits no death notification here; Game checks Player.is_dead later. -/
noncomputable def Player.take_damage (p : Player) (amount : ℤ) (current_time : ℝ) : Player :=
  if p.invincible = true then p
  else
    { p with health := p.health - amount
             damage_taken := p.damage_taken + amount
             last_damage_time := current_time
             invincible := true
             invincibility_timer := PLAYER_INVINCIBILITY_DURATION
             screen_shake_timer := SCREEN_SHAKE_DURATION
             screen_shake_intensity := SCREEN_SHAKE_INTENSITY }

/-- Player.is_dead: health at or below zero. -/
def Player.is_dead (p : Player) : Prop := p.health ≤ 0

/-! Per-step bullet collision evaluation, from Game._update_collision_detection. -/

/-- The fields of a hit candidate (the player or an enemy) that the bullet
collision loop reads. -/
structure HitEntity where
  id : String
  pos : ℝ × ℝ
  radius : ℝ
  isPlayer : Bool
  health : ℤ
  alive : Bool

/-- Aliveness test of the loop: not Player.is_dead() for the player,
the alive flag for an enemy. -/
def HitEntity.entity_alive (e : HitEntity) : Prop :=
  if e.isPlayer = true then 0 < e.health else e.alive = true

/-- A projectile damage application (victim identifier and amount). -/
structure DamageEvent where
  target : String
  damage : ℤ
deriving DecidableEq

open scoped Classical in
/-- CollisionManager.check_bullet_entity_collision narrow phase: keep the
candidates whose circle overlaps the bullet.  The candidate list stands
for the spatial-grid query result, whose iteration order is arbitrary. -/
noncomputable def check_bullet_entity_collision (bullet_pos : ℝ × ℝ)
    (bullet_radius : ℝ) (entities : List HitEntity) : List HitEntity :=
  entities.filter (fun e => distance bullet_pos e.pos < bullet_radius + e.radius)

open scoped Classical in
/-- The inner damage loop of Game._update_collision_detection: walk the
hit candidates, damage the first one that is alive and is not the owner
of the bullet, kill the bullet and stop.  Returns the damage events
applied and the final alive flag of the bullet. -/
noncomputable def bullet_hit_loop (b : Bullet) : List HitEntity → List DamageEvent × Bool
  | [] => ([], true)
  | e :: rest =>
    if e.entity_alive ∧ b.owner_id ≠ e.id then
      ([{ target := e.id, damage := b.damage }], false)
    else
      bullet_hit_loop b rest

open scoped Classical in
/-- One bullet of the per-step collision pass: dead bullets are skipped,
a wall hit kills the bullet with no damage, otherwise the damage loop
runs on the overlap-filtered candidates. -/
noncomputable def process_bullet (b : Bullet) (walls : List Rect)
    (entities : List HitEntity) : List DamageEvent × Bool :=
  if b.alive = false then ([], false)
  else if check_bullet_wall_collision walls b.pos b.radius then ([], false)
  else bullet_hit_loop b (check_bullet_entity_collision b.pos b.radius entities)

/-! Sniper decision cycle, from ai_behaviors.py. -/

/-- AIState enumeration. -/
inductive AIState where
  | PATROL
  | CHASE
  | ATTACK
  | RETREAT
  | DODGE
  | DEAD
deriving DecidableEq

/-- AIDecision structure with its constructor defaults. -/
structure AIDecision where
  state : AIState
  target_pos : Option (ℝ × ℝ)
  should_fire : Bool
  move_direction : ℝ × ℝ
  look_direction : ℝ
  priority : ℤ

/-- AIDecision.__init__ defaults. -/
def mkAIDecision : AIDecision :=
  { state := .PATROL, target_pos := none, should_fire := false,
    move_direction := (0, 0), look_direction := 0, priority := 0 }

open scoped Classical in
/-- AIBehavior._can_see_player: false without a target or beyond the
detection range; otherwise a line-of-sight test against the walls. -/
noncomputable def can_see_player (entity_pos : ℝ × ℝ) (detection_range : ℝ)
    (target : Option (ℝ × ℝ)) (walls : List Rect) : Prop :=
  match target with
  | none => False
  | some tp =>
    ¬ distance entity_pos tp > detection_range ∧ line_of_sight entity_pos tp walls

open scoped Classical in
/-- AIBehavior._get_predicted_player_position: with a target and a
non-empty velocity memory, extrapolate the target position by the average
of the last (at most) five recorded velocity samples; the memory list
holds the velocity entries of player_velocity_memory, oldest first. -/
noncomputable def get_predicted_player_position (entity_pos : ℝ × ℝ)
    (last_seen : Option (ℝ × ℝ)) (target : Option (ℝ × ℝ))
    (memory : List (ℝ × ℝ)) (prediction_time : ℝ) : ℝ × ℝ :=
  match target with
  | none => last_seen.getD entity_pos
  | some tp =>
    if memory = [] then tp
    else
      let last_five := memory.drop (memory.length - 5)
      let total := last_five.foldl (fun acc v => (acc.1 + v.1, acc.2 + v.2)) (0, 0)
      let count : ℕ := min memory.length 5
      let avg := (total.1 / (count : ℝ), total.2 / (count : ℝ))
      (tp.1 + avg.1 * prediction_time, tp.2 + avg.2 * prediction_time)

/-- SniperAI state read by a decision cycle.  SniperAI.__init__ sets
detection_range to 600, preferred_range to SNIPER_PREFERRED_RANGE and
retreat_range to SNIPER_RETREAT_RANGE. -/
structure SniperState where
  entity_pos : ℝ × ℝ
  detection_range : ℝ
  preferred_range : ℝ
  retreat_range : ℝ
  last_seen_player_pos : Option (ℝ × ℝ)
  player_velocity_memory : List (ℝ × ℝ)

open scoped Classical in
/-- SniperAI._make_decision: retreat when the target is both close and
visible, attack inside the open preferred-range band when visible, chase
when merely visible, patrol otherwise; in ATTACK aim at the lead-predicted
target position and request fire.  Returns the decision together with the
updated last_seen_player_pos. -/
noncomputable def sniper_make_decision (s : SniperState) (walls : List Rect)
    (target : Option (ℝ × ℝ)) : AIDecision × Option (ℝ × ℝ) :=
  match target with
  | none => ({ mkAIDecision with state := .PATROL }, s.last_seen_player_pos)
  | some tp =>
    let player_distance := distance s.entity_pos tp
    let can_see := can_see_player s.entity_pos s.detection_range (some tp) walls
    let last_seen := if can_see then some tp else s.last_seen_player_pos
    let state :=
      if player_distance < s.retreat_range ∧ can_see then AIState.RETREAT
      else if s.preferred_range - 50 < player_distance ∧
          player_distance < s.preferred_range + 50 ∧ can_see then AIState.ATTACK
      else if can_see then AIState.CHASE
      else AIState.PATROL
    if state = .RETREAT then
      match last_seen with
      | some ls =>
        let direction := normalize_vector (s.entity_pos.1 - ls.1, s.entity_pos.2 - ls.2)
        ({ mkAIDecision with
            state := state
            move_direction := direction
            look_direction := atan2 (-direction.2) (-direction.1) }, last_seen)
      | none => ({ mkAIDecision with state := state }, last_seen)
    else if state = .CHASE then
      match last_seen with
      | some ls =>
        let direction_to_player :=
          normalize_vector (ls.1 - s.entity_pos.1, ls.2 - s.entity_pos.2)
        let move := if player_distance > s.preferred_range then direction_to_player else (0, 0)
        ({ mkAIDecision with
            state := state
            move_direction := move
            look_direction := atan2 direction_to_player.2 direction_to_player.1 }, last_seen)
      | none => ({ mkAIDecision with state := state }, last_seen)
    else if state = .ATTACK then
      match last_seen with
      | some _ =>
        let predicted := get_predicted_player_position s.entity_pos last_seen (some tp)
          s.player_velocity_memory (1/2)
        let direction_to_predicted :=
          normalize_vector (predicted.1 - s.entity_pos.1, predicted.2 - s.entity_pos.2)
        ({ mkAIDecision with
            state := state
            look_direction := atan2 direction_to_predicted.2 direction_to_predicted.1
            should_fire := true }, last_seen)
      | none => ({ mkAIDecision with state := state }, last_seen)
    else ({ mkAIDecision with state := state }, last_seen)

/-- Concrete enemy fixture used by witness theorems. -/
def sampleEnemy : Enemy :=
  { id := "enemy_1234", pos := (0, 0), radius := 12, max_health := 40, health := 5,
    alive := true, invincible := false, invincibility_timer := 0 }

/-- Concrete player fixture used by witness theorems. -/
def samplePlayer : Player :=
  { id := "player", pos := (0, 0), radius := 12, max_health := 100, health := 5,
    invincible := false, invincibility_timer := 0, last_damage_time := 0,
    damage_taken := 0, screen_shake_timer := 0, screen_shake_intensity := 2 }

/-- Concrete sniper fixture whose recent velocity samples average to zero
while the most recent sample is nonzero. -/
def c9CounterState : SniperState :=
  { entity_pos := (0, 0), detection_range := 600,
    preferred_range := SNIPER_PREFERRED_RANGE, retreat_range := SNIPER_RETREAT_RANGE,
    last_seen_player_pos := none, player_velocity_memory := [(-100, 0), (100, 0)] }

/-- Concrete sniper fixture with a single nonzero velocity sample. -/
def c9WitnessState : SniperState :=
  { entity_pos := (0, 0), detection_range := 600,
    preferred_range := SNIPER_PREFERRED_RANGE, retreat_range := SNIPER_RETREAT_RANGE,
    last_seen_player_pos := none, player_velocity_memory := [(50, 0)] }

/-! Shared lemmas. -/

lemma distance_self (p : ℝ × ℝ) : distance p p = 0 := by
  simp [distance]

lemma distance_eq_of_sq (p q : ℝ × ℝ) (r : ℝ) (hr : 0 ≤ r)
    (h : (q.1 - p.1) * (q.1 - p.1) + (q.2 - p.2) * (q.2 - p.2) = r * r) :
    distance p q = r := by
  rw [distance, h]
  exact Real.sqrt_mul_self hr

/-! Claim C10: damage to an invulnerable combatant is silently discarded. -/

/-- C10: with the invulnerability flag set, Enemy.take_damage and
Player.take_damage leave the combatant entirely unchanged and emit no
death notification. -/
theorem C10_invulnerability_discard :
    (∀ (e : Enemy) (amount : ℤ) (attacker : Option String),
      e.invincible = true → e.take_damage amount attacker = (e, none)) ∧
    (∀ (p : Player) (amount : ℤ) (t : ℝ),
      p.invincible = true → p.take_damage amount t = p) := by
  constructor
  · intro e amount attacker h
    simp [Enemy.take_damage, h]
  · intro p amount t h
    simp [Player.take_damage, h]

/-- Witness for C10 at a concrete invincible enemy and player. -/
theorem C10_witness :
    Enemy.take_damage
        { id := "enemy_1234", pos := (0, 0), radius := 12, max_health := 40,
          health := 40, alive := true, invincible := true, invincibility_timer := 1 }
        10 (some "player") =
      ({ id := "enemy_1234", pos := (0, 0), radius := 12, max_health := 40,
         health := 40, alive := true, invincible := true, invincibility_timer := 1 }, none) ∧
    Player.take_damage
        { id := "player", pos := (0, 0), radius := 12, max_health := 100, health := 100,
          invincible := true, invincibility_timer := 1, last_damage_time := 0,
          damage_taken := 0, screen_shake_timer := 0, screen_shake_intensity := 2 }
        10 5 =
      { id := "player", pos := (0, 0), radius := 12, max_health := 100, health := 100,
        invincible := true, invincibility_timer := 1, last_damage_time := 0,
        damage_taken := 0, screen_shake_timer := 0, screen_shake_intensity := 2 } :=
  ⟨C10_invulnerability_discard.1 _ 10 (some "player") rfl,
   C10_invulnerability_discard.2 _ 10 5 rfl⟩

/-! Claim C3: fire() is refused while reloading, empty, or cooling down. -/

/-- C3: when the weapon is reloading, has zero ammo, or is still on fire
cooldown, fire() (base weapon and shotgun) returns false, appends no
bullet, and leaves the weapon unchanged; moreover ammo is never changed
by start_reload, by an update tick that does not complete a reload, or by
a refused fire, and only finish_reload refills the magazine. -/
theorem C3_fire_refusal :
    (∀ (w : Weapon) (pos : ℝ × ℝ) (direction : ℝ) (owner : String)
        (bullets : List Bullet) (jitter : ℝ),
      (w.is_reloading = true ∨ w.ammo = 0 ∨ 0 < w.fire_timer) →
      w.fire pos direction owner bullets jitter = (false, w, bullets)) ∧
    (∀ (s : Shotgun) (pos : ℝ × ℝ) (direction : ℝ) (owner : String)
        (bullets : List Bullet) (jitter : ℕ → ℝ),
      (s.toWeapon.is_reloading = true ∨ s.toWeapon.ammo = 0 ∨ 0 < s.toWeapon.fire_timer) →
      s.fire pos direction owner bullets jitter = (false, s, bullets)) ∧
    (∀ w : Weapon, w.start_reload.ammo = w.ammo) ∧
    (∀ (w : Weapon) (dt : ℝ), w.is_reloading = false → (w.update dt).ammo = w.ammo) ∧
    (∀ (w : Weapon) (dt : ℝ), w.is_reloading = true → ¬ w.reload_timer - dt ≤ 0 →
      (w.update dt).ammo = w.ammo) ∧
    (∀ w : Weapon, w.finish_reload.ammo = w.magazine_size) := by
  have hrefuse : ∀ w : Weapon,
      (w.is_reloading = true ∨ w.ammo = 0 ∨ 0 < w.fire_timer) → ¬ w.can_fire := by
    rintro w (h | h | h) ⟨h1, h2, h3⟩
    · exact h1 h
    · omega
    · linarith
  refine ⟨?_, ?_, ?_, ?_, ?_, ?_⟩
  · intro w pos direction owner bullets jitter h
    simp [Weapon.fire, hrefuse w h]
  · intro s pos direction owner bullets jitter h
    simp [Shotgun.fire, hrefuse s.toWeapon h]
  · intro w
    unfold Weapon.start_reload
    split <;> rfl
  · intro w dt h
    simp only [Weapon.update]
    split <;> simp [h]
  · intro w dt h h2
    simp only [Weapon.update]
    split <;> simp_all
  · intro w
    rfl

/-- Witness for C3: an empty pistol-shaped weapon with no cooldown running
still refuses to fire, for both the base weapon and the shotgun. -/
theorem C3_witness :
    (({ name := "Pistol", damage := 20, fire_rate := 3, bullet_speed := 500,
        spread := 1/20, magazine_size := 12, reload_time := 3/2, auto_fire := false,
        ammo := 0, is_reloading := false, reload_timer := 0, fire_timer := 0,
        fire_cooldown := 1/3, shots_fired := 12, total_shots_fired := 12 : Weapon}).fire
        (0, 0) 0 "player" [] 0 =
      (false,
       { name := "Pistol", damage := 20, fire_rate := 3, bullet_speed := 500,
         spread := 1/20, magazine_size := 12, reload_time := 3/2, auto_fire := false,
         ammo := 0, is_reloading := false, reload_timer := 0, fire_timer := 0,
         fire_cooldown := 1/3, shots_fired := 12, total_shots_fired := 12 }, [])) ∧
    (({ toWeapon :=
        { name := "Shotgun", damage := 8, fire_rate := 1, bullet_speed := 400,
          spread := 3/10, magazine_size := 6, reload_time := 5/2, auto_fire := false,
          ammo := 0, is_reloading := false, reload_timer := 0, fire_timer := 0,
          fire_cooldown := 1, shots_fired := 6, total_shots_fired := 6 }
        pellets := 8 : Shotgun}).fire (0, 0) 0 "player" [] (fun _ => 0) =
      (false,
       { toWeapon :=
         { name := "Shotgun", damage := 8, fire_rate := 1, bullet_speed := 400,
           spread := 3/10, magazine_size := 6, reload_time := 5/2, auto_fire := false,
           ammo := 0, is_reloading := false, reload_timer := 0, fire_timer := 0,
           fire_cooldown := 1, shots_fired := 6, total_shots_fired := 6 }
         pellets := 8 }, [])) :=
  ⟨C3_fire_refusal.1 _ (0, 0) 0 "player" [] 0 (Or.inr (Or.inl rfl)),
   C3_fire_refusal.2.1 _ (0, 0) 0 "player" [] (fun _ => 0) (Or.inr (Or.inl rfl))⟩

/-! Claim C5: the claimed hard cap on live projectiles does not exist. -/

/-- C5: config.py documents MAX_BULLETS_ON_SCREEN = 500 as the hard cap
for all bullets, but BulletManager.add_bullet appends unconditionally: a
manager already holding 500 bullets grows to 501 and the oldest bullet is
retained, so neither the cap nor the oldest-first eviction is enforced. -/
theorem C5_no_bullet_cap :
    ((BulletManager.mk
        (List.replicate MAX_BULLETS_ON_SCREEN (mkBullet (0, 0) (0, 0) 10 "player")) 500).add_bullet
        (mkBullet (0, 0) (0, 0) 10 "player")).bullets.length = MAX_BULLETS_ON_SCREEN + 1 ∧
    ((BulletManager.mk
        (List.replicate MAX_BULLETS_ON_SCREEN (mkBullet (0, 0) (0, 0) 10 "player")) 500).add_bullet
        (mkBullet (0, 0) (0, 0) 10 "player")).bullets =
      List.replicate MAX_BULLETS_ON_SCREEN (mkBullet (0, 0) (0, 0) 10 "player") ++
        [mkBullet (0, 0) (0, 0) 10 "player"] := by
  constructor
  · simp [BulletManager.add_bullet]
  · rfl

/-! Claim C6: effects of a successful fire, and the ammo invariant. -/

/-- C6: when can_fire holds, fire() reports success, spends exactly one
round, resets the fire cooldown to the per-weapon cooldown constant, and
appends exactly one bullet (pellet-count bullets for the shotgun); and
the invariant 0 ≤ ammo ≤ magazine_size is preserved by fire, start_reload,
update and finish_reload. -/
theorem C6_fire_effects :
    (∀ (w : Weapon) (pos : ℝ × ℝ) (direction : ℝ) (owner : String)
        (bullets : List Bullet) (jitter : ℝ), w.can_fire →
      ((w.fire pos direction owner bullets jitter).1 = true ∧
       (w.fire pos direction owner bullets jitter).2.1.ammo = w.ammo - 1 ∧
       (w.fire pos direction owner bullets jitter).2.1.fire_timer = w.fire_cooldown ∧
       (w.fire pos direction owner bullets jitter).2.2.length = bullets.length + 1)) ∧
    (∀ (s : Shotgun) (pos : ℝ × ℝ) (direction : ℝ) (owner : String)
        (bullets : List Bullet) (jitter : ℕ → ℝ), s.toWeapon.can_fire →
      ((s.fire pos direction owner bullets jitter).1 = true ∧
       (s.fire pos direction owner bullets jitter).2.1.toWeapon.ammo = s.toWeapon.ammo - 1 ∧
       (s.fire pos direction owner bullets jitter).2.1.toWeapon.fire_timer =
         s.toWeapon.fire_cooldown ∧
       (s.fire pos direction owner bullets jitter).2.2.length = bullets.length + s.pellets)) ∧
    (∀ (w : Weapon) (pos : ℝ × ℝ) (direction : ℝ) (owner : String)
        (bullets : List Bullet) (jitter : ℝ), ammo_invariant w →
      ammo_invariant (w.fire pos direction owner bullets jitter).2.1) ∧
    (∀ w : Weapon, ammo_invariant w → ammo_invariant w.start_reload) ∧
    (∀ (w : Weapon) (dt : ℝ), ammo_invariant w → ammo_invariant (w.update dt)) ∧
    (∀ w : Weapon, ammo_invariant w → ammo_invariant w.finish_reload) := by
  refine ⟨?_, ?_, ?_, ?_, ?_, ?_⟩
  · intro w pos direction owner bullets jitter h
    simp [Weapon.fire, h]
  · intro s pos direction owner bullets jitter h
    simp [Shotgun.fire, h]
  · intro w pos direction owner bullets jitter hinv
    obtain ⟨hi1, hi2⟩ := hinv
    by_cases h : w.can_fire
    · obtain ⟨h1, h2, h3⟩ := h
      simp only [ammo_invariant, Weapon.fire, if_pos (show w.can_fire from ⟨h1, h2, h3⟩)]
      constructor <;> omega
    · simpa [ammo_invariant, Weapon.fire, h] using ⟨hi1, hi2⟩
  · intro w hinv
    obtain ⟨hi1, hi2⟩ := hinv
    simp only [ammo_invariant, Weapon.start_reload]
    split <;> exact ⟨hi1, hi2⟩
  · intro w dt hinv
    obtain ⟨hi1, hi2⟩ := hinv
    simp only [ammo_invariant, Weapon.update, Weapon.finish_reload]
    split_ifs <;> refine ⟨?_, ?_⟩ <;> (try simp_all) <;> omega
  · intro w hinv
    obtain ⟨hi1, hi2⟩ := hinv
    simp only [ammo_invariant, Weapon.finish_reload]
    exact ⟨by omega, by omega⟩

/-- Witness for C6: a fresh pistol-shaped weapon fires, and a fresh
shotgun-shaped weapon emits its eight pellets. -/
theorem C6_witness :
    (((mkWeapon "Pistol" 20 3 500 (1/20) 12 (3/2)).fire (0, 0) 0 "player" [] 0).2.1.ammo =
        (mkWeapon "Pistol" 20 3 500 (1/20) 12 (3/2)).ammo - 1 ∧
     ((mkWeapon "Pistol" 20 3 500 (1/20) 12 (3/2)).fire (0, 0) 0 "player" [] 0).2.2.length =
        ([] : List Bullet).length + 1) ∧
    ((Shotgun.mk (mkWeapon "Shotgun" 8 1 400 (3/10) 6 (5/2)) SHOTGUN_PELLETS).fire
        (0, 0) 0 "player" [] (fun _ => 0)).2.2.length =
      ([] : List Bullet).length + SHOTGUN_PELLETS := by
  have hw : (mkWeapon "Pistol" 20 3 500 (1/20) 12 (3/2)).can_fire := by
    refine ⟨by simp [mkWeapon], by simp [mkWeapon], by simp [mkWeapon]⟩
  have hs : (mkWeapon "Shotgun" 8 1 400 (3/10) 6 (5/2)).can_fire := by
    refine ⟨by simp [mkWeapon], by simp [mkWeapon], by simp [mkWeapon]⟩
  refine ⟨⟨?_, ?_⟩, ?_⟩
  · exact (C6_fire_effects.1 _ (0, 0) 0 "player" [] 0 hw).2.1
  · exact (C6_fire_effects.1 _ (0, 0) 0 "player" [] 0 hw).2.2.2
  · exact (C6_fire_effects.2.1 _ (0, 0) 0 "player" [] (fun _ => 0) hs).2.2.2

/-! Claim C1: damage application, clamping, and one-shot death. -/

lemma Enemy.take_damage_dead (e : Enemy) (a : ℤ) (att : Option String)
    (h : e.alive = false) : e.take_damage a att = (e, none) := by
  simp [Enemy.take_damage, h]

lemma Enemy.take_damage_seq_dead (e : Enemy) (l : List (ℤ × Option String))
    (h : e.alive = false) : e.take_damage_seq l = (e, []) := by
  induction l with
  | nil => rfl
  | cons hd tl ih =>
    obtain ⟨a, att⟩ := hd
    simp [Enemy.take_damage_seq, Enemy.take_damage_dead e a att h, ih]

lemma Enemy.take_damage_seq_count_le_one :
    ∀ (l : List (ℤ × Option String)) (e : Enemy), (e.take_damage_seq l).2.length ≤ 1 := by
  intro l
  induction l with
  | nil => intro e; simp [Enemy.take_damage_seq]
  | cons hd tl ih =>
    intro e
    obtain ⟨a, att⟩ := hd
    by_cases hdead : e.alive = false
    · rw [Enemy.take_damage_seq_dead e _ hdead]
      simp
    · have halive : e.alive = true := by simpa using hdead
      by_cases hinv : e.invincible = true
      · have hstep : e.take_damage a att = (e, none) := by
          simp [Enemy.take_damage, hinv]
        simpa [Enemy.take_damage_seq, hstep] using ih e
      · have hinv2 : e.invincible = false := by simpa using hinv
        by_cases hkill : e.health - a ≤ 0
        · have hstep : e.take_damage a att =
              ({ e with health := e.health - a, alive := false },
               some { victim := e.id, killer := att }) := by
            simp [Enemy.take_damage, Enemy.die, halive, hinv2, hkill]
          have hrest := Enemy.take_damage_seq_dead
            { e with health := e.health - a, alive := false } tl rfl
          simp [Enemy.take_damage_seq, hstep, hrest]
        · have hstep : e.take_damage a att = ({ e with health := e.health - a }, none) := by
            simp [Enemy.take_damage, Enemy.die, halive, hinv2, hkill]
          simpa [Enemy.take_damage_seq, hstep] using ih { e with health := e.health - a }

/-- C1 counterexample: an alive, vulnerable enemy with health 5 hit for 10
ends at health -5, not max(0, 5 - 10) = 0, and the player likewise drops
below zero; the claimed clamp and the 0 ≤ health invariant are false. -/
theorem C1_counterexample :
    (sampleEnemy.take_damage 10 (some "player")).1.health = -5 ∧
    ¬ (sampleEnemy.take_damage 10 (some "player")).1.health =
        max 0 (sampleEnemy.health - 10) ∧
    (samplePlayer.take_damage 10 0).health = -5 := by
  refine ⟨?_, ?_, ?_⟩
  · simp [Enemy.take_damage, Enemy.die, sampleEnemy]
  · simp [Enemy.take_damage, Enemy.die, sampleEnemy]
  · simp [Player.take_damage, samplePlayer]

/-- C1 amended: damage application subtracts the amount from health with
no clamping at zero (health can go negative), the enemy alive flag drops
exactly when the new health is at most zero, a death notification is
emitted exactly then, any damage sequence emits at most one death
notification, a lethal hit followed by arbitrarily many further damage
applications emits exactly one, and Player.take_damage subtracts without
clamping and emits no death notification itself. -/
theorem C1_amended_damage_application :
    (∀ (e : Enemy) (amount : ℤ) (att : Option String),
        e.alive = true → e.invincible = false →
      ((e.take_damage amount att).1.health = e.health - amount ∧
       ((e.take_damage amount att).1.alive = true ↔ 0 < e.health - amount) ∧
       ((e.take_damage amount att).2.isSome = true ↔ e.health - amount ≤ 0))) ∧
    (∀ (e : Enemy) (l : List (ℤ × Option String)),
      (e.take_damage_seq l).2.length ≤ 1) ∧
    (∀ (e : Enemy) (amount : ℤ) (att : Option String) (rest : List (ℤ × Option String)),
        e.alive = true → e.invincible = false → e.health - amount ≤ 0 →
      (e.take_damage_seq ((amount, att) :: rest)).2.length = 1) ∧
    (∀ (p : Player) (amount : ℤ) (t : ℝ), p.invincible = false →
      (p.take_damage amount t).health = p.health - amount) := by
  refine ⟨?_, ?_, ?_, ?_⟩
  · intro e amount att halive hinv
    by_cases hkill : e.health - amount ≤ 0
    · have hstep : e.take_damage amount att =
          ({ e with health := e.health - amount, alive := false },
           some { victim := e.id, killer := att }) := by
        simp [Enemy.take_damage, Enemy.die, halive, hinv, hkill]
      refine ⟨by simp [hstep], by simp [hstep]; omega, by simp [hstep]; omega⟩
    · have hstep : e.take_damage amount att =
          ({ e with health := e.health - amount }, none) := by
        simp [Enemy.take_damage, Enemy.die, halive, hinv, hkill]
      refine ⟨by simp [hstep], by simp [hstep, halive]; omega, by simp [hstep]; omega⟩
  · intro e l
    exact Enemy.take_damage_seq_count_le_one l e
  · intro e amount att rest halive hinv hkill
    have hstep : e.take_damage amount att =
        ({ e with health := e.health - amount, alive := false },
         some { victim := e.id, killer := att }) := by
      simp [Enemy.take_damage, Enemy.die, halive, hinv, hkill]
    have hrest := Enemy.take_damage_seq_dead
      { e with health := e.health - amount, alive := false } rest rfl
    simp [Enemy.take_damage_seq, hstep, hrest]
  · intro p amount t hinv
    simp [Player.take_damage, hinv]

/-- Witness for C1 at the concrete fixtures: a non-lethal hit, a lethal
hit followed by a further hit, and a player hit. -/
theorem C1_witness :
    ((sampleEnemy.take_damage 3 none).1.health = sampleEnemy.health - 3 ∧
     ((sampleEnemy.take_damage 3 none).1.alive = true ↔ 0 < sampleEnemy.health - 3)) ∧
    (sampleEnemy.take_damage_seq [(10, some "player"), (7, none)]).2.length = 1 ∧
    (samplePlayer.take_damage 10 0).health = samplePlayer.health - 10 := by
  refine ⟨⟨?_, ?_⟩, ?_, ?_⟩
  · exact (C1_amended_damage_application.1 sampleEnemy 3 none rfl rfl).1
  · exact (C1_amended_damage_application.1 sampleEnemy 3 none rfl rfl).2.1
  · exact C1_amended_damage_application.2.2.1 sampleEnemy 10 (some "player") [(7, none)]
      rfl rfl (by decide)
  · exact C1_amended_damage_application.2.2.2 samplePlayer 10 0 rfl

/-! Claim C7: circle-circle resolution leaves separated or coincident
pairs unchanged, and is a fixed point on separated pairs. -/

/-- C7: when the two centres are at distance at least the sum of the radii,
or coincide exactly, resolve_entity_entity_collision returns both input
positions unchanged, and applying it a second time to the result changes
nothing either. -/
theorem C7_resolve_separated_fixed_point (p1 : ℝ × ℝ) (r1 : ℝ) (p2 : ℝ × ℝ) (r2 : ℝ)
    (h : r1 + r2 ≤ distance p1 p2 ∨ p1 = p2) :
    resolve_entity_entity_collision p1 r1 p2 r2 = (p1, p2) ∧
    resolve_entity_entity_collision
        (resolve_entity_entity_collision p1 r1 p2 r2).1 r1
        (resolve_entity_entity_collision p1 r1 p2 r2).2 r2 = (p1, p2) := by
  have hone : resolve_entity_entity_collision p1 r1 p2 r2 = (p1, p2) := by
    unfold resolve_entity_entity_collision
    rcases h with h | h
    · rw [if_neg]
      rintro ⟨hlt, -⟩
      exact absurd h (not_le.mpr hlt)
    · rw [if_neg]
      rintro ⟨-, hpos⟩
      rw [h, distance_self] at hpos
      exact lt_irrefl 0 hpos
  refine ⟨hone, ?_⟩
  rw [hone]
  exact hone

/-- Witness for C7: circles of radii 2 and 3 with centres exactly 5 apart. -/
theorem C7_witness :
    (2 + 3 ≤ distance ((0 : ℝ), (0 : ℝ)) ((3 : ℝ), (4 : ℝ)) ∨
      ((0 : ℝ), (0 : ℝ)) = ((3 : ℝ), (4 : ℝ))) ∧
    resolve_entity_entity_collision ((0 : ℝ), (0 : ℝ)) 2 ((3 : ℝ), (4 : ℝ)) 3 =
      (((0 : ℝ), (0 : ℝ)), ((3 : ℝ), (4 : ℝ))) := by
  have hd : distance ((0 : ℝ), (0 : ℝ)) ((3 : ℝ), (4 : ℝ)) = 5 :=
    distance_eq_of_sq _ _ 5 (by norm_num) (by norm_num)
  have h : (2 : ℝ) + 3 ≤ distance ((0 : ℝ), (0 : ℝ)) ((3 : ℝ), (4 : ℝ)) ∨
      ((0 : ℝ), (0 : ℝ)) = ((3 : ℝ), (4 : ℝ)) := Or.inl (by rw [hd]; norm_num)
  exact ⟨h, (C7_resolve_separated_fixed_point _ 2 _ 3 h).1⟩

/-! Claim C2: a projectile never damages its own owner. -/

lemma bullet_hit_loop_no_owner (b : Bullet) :
    ∀ (es : List HitEntity), ∀ ev ∈ (bullet_hit_loop b es).1, ev.target ≠ b.owner_id := by
  intro es
  induction es with
  | nil => simp [bullet_hit_loop]
  | cons e rest ih =>
    intro ev hev
    rw [bullet_hit_loop] at hev
    split_ifs at hev with h
    · simp only [List.mem_singleton] at hev
      subst hev
      exact fun hcontra => h.2 hcontra.symm
    · exact ih ev hev

/-- C2: in the per-step bullet collision pass, every damage event produced
targets an entity whose identifier differs from the owner identifier of
the bullet, for any wall layout and any candidate entity list (player or
enemy alike). -/
theorem C2_self_damage_immunity (b : Bullet) (walls : List Rect)
    (entities : List HitEntity) :
    ∀ ev ∈ (process_bullet b walls entities).1, ev.target ≠ b.owner_id := by
  intro ev hev
  rw [process_bullet] at hev
  split_ifs at hev with h1 h2
  · simp at hev
  · simp at hev
  · exact bullet_hit_loop_no_owner b _ ev hev

/-- Witness for C2: a player-owned bullet overlapping both the player and
an enemy damages the enemy, and that event does not target the owner. -/
theorem C2_witness :
    ({ target := "enemy_1", damage := 5 } : DamageEvent) ∈
      (process_bullet (mkBullet (0, 0) (0, 0) 5 "player") []
        [{ id := "player", pos := (0, 0), radius := 12, isPlayer := true,
           health := 100, alive := true },
         { id := "enemy_1", pos := (0, 0), radius := 12, isPlayer := false,
           health := 40, alive := true }]).1 ∧
    ({ target := "enemy_1", damage := 5 } : DamageEvent).target ≠
      (mkBullet (0, 0) (0, 0) 5 "player").owner_id := by
  have hmem : ({ target := "enemy_1", damage := 5 } : DamageEvent) ∈
      (process_bullet (mkBullet (0, 0) (0, 0) 5 "player") []
        [{ id := "player", pos := (0, 0), radius := 12, isPlayer := true,
           health := 100, alive := true },
         { id := "enemy_1", pos := (0, 0), radius := 12, isPlayer := false,
           health := 40, alive := true }]).1 := by
    norm_num [process_bullet, check_bullet_wall_collision, check_bullet_entity_collision,
      bullet_hit_loop, HitEntity.entity_alive, mkBullet, distance_self, BULLET_SIZE,
      List.filter_cons, List.filter_nil]
    rw [if_neg (by decide : ¬ "player" = "enemy_1")]
    simp
  exact ⟨hmem, C2_self_damage_immunity _ [] _ _ hmem⟩

/-! Claim C4: the spawn-position search raises instead of falling back. -/

/-- C4: with the preferred position invalid (here: inside a wall), the
expanding-ring loop of find_valid_spawn_position runs and its first
iteration evaluates math.pi, but collision.py never imports math, so the
call raises NameError instead of returning a fallback position. -/
theorem C4_spawn_search_raises :
    find_valid_spawn_position [{ x := 50, y := 50, w := 100, h := 100 }]
        ((100 : ℝ), (100 : ℝ)) 10 10 =
      PyResult.exn "NameError: name math is not defined" := by
  have hcol : circle_rect_collision ((100 : ℝ), (100 : ℝ)) 10
      { x := 50, y := 50, w := 100, h := 100 } := by
    unfold circle_rect_collision clamp Rect.left Rect.top Rect.right Rect.bottom
    have h1 : max (50 : ℝ) (min 100 (50 + 100)) = 100 := by norm_num
    simp only [h1]
    rw [distance_self]
    norm_num
  have hvalid : is_position_valid [{ x := 50, y := 50, w := 100, h := 100 }]
      ((100 : ℝ), (100 : ℝ)) 10 = false := by
    unfold is_position_valid
    rw [if_neg, if_pos]
    · exact ⟨_, List.mem_singleton.mpr rfl, hcol⟩
    · norm_num [SCREEN_WIDTH, SCREEN_HEIGHT]
  unfold find_valid_spawn_position
  rw [hvalid]
  simp

/-! Claim C8: projectile lifetime expiry, and step semantics. -/

lemma Bullet.update_dead (b : Bullet) (dt : ℝ) (h : b.alive = false) :
    b.update dt = b := by
  simp [Bullet.update, h]

lemma foldl_update_dead (dts : List ℝ) (b : Bullet) (h : b.alive = false) :
    dts.foldl Bullet.update b = b := by
  induction dts generalizing b with
  | nil => rfl
  | cons dt rest ih =>
    rw [List.foldl_cons, Bullet.update_dead b dt h]
    exact ih b h

lemma Bullet.update_alive_proj (b : Bullet) (dt : ℝ) (h : b.alive = true) :
    (b.update dt).pos = (b.pos.1 + b.velocity.1 * dt, b.pos.2 + b.velocity.2 * dt) ∧
    (b.update dt).velocity = b.velocity ∧
    (b.update dt).radius = b.radius ∧
    (b.update dt).lifetime = b.lifetime - dt ∧
    ((b.update dt).alive = true ↔
      (¬ b.lifetime - dt ≤ 0 ∧
       ¬ bullet_out_of_bounds
          (b.pos.1 + b.velocity.1 * dt, b.pos.2 + b.velocity.2 * dt) b.radius)) := by
  rw [Bullet.update, if_neg (by simp [h])]
  refine ⟨rfl, rfl, rfl, rfl, ?_⟩
  constructor
  · intro halive
    dsimp only at halive
    split_ifs at halive with h1 h2
    exact ⟨h2, h1⟩
  · rintro ⟨h1, h2⟩
    dsimp only
    rw [if_neg h2, if_neg h1, h]

lemma foldl_update_zero_velocity (p : ℝ × ℝ) (radius : ℝ)
    (hin : ¬ bullet_out_of_bounds p radius) :
    ∀ (dts : List ℝ), (∀ dt ∈ dts, 0 ≤ dt) →
    ∀ (b : Bullet), b.pos = p → b.velocity = (0, 0) → b.radius = radius →
      b.alive = true → dts.sum < b.lifetime →
      ((dts.foldl Bullet.update b).alive = true ∧
       (dts.foldl Bullet.update b).pos = p ∧
       (dts.foldl Bullet.update b).velocity = (0, 0) ∧
       (dts.foldl Bullet.update b).radius = radius ∧
       (dts.foldl Bullet.update b).lifetime = b.lifetime - dts.sum) := by
  intro dts
  induction dts with
  | nil =>
    intro _ b hp hv hr ha hsum
    simp_all
  | cons dt rest ih =>
    intro hnn b hp hv hr ha hsum
    have hdtnn : 0 ≤ dt := hnn dt (List.mem_cons_self dt rest)
    have hrestnn : ∀ x ∈ rest, 0 ≤ x := fun x hx => hnn x (List.mem_cons_of_mem dt hx)
    have hrestsum : 0 ≤ rest.sum := List.sum_nonneg hrestnn
    rw [List.sum_cons] at hsum
    obtain ⟨hs1, hs2, hs3, hs4, hs5⟩ := Bullet.update_alive_proj b dt ha
    have hposstep : (b.pos.1 + b.velocity.1 * dt, b.pos.2 + b.velocity.2 * dt) = p := by
      rw [hp, hv]
      simp
    rw [hposstep] at hs1 hs5
    rw [hr] at hs3 hs5
    have hlife : ¬ b.lifetime - dt ≤ 0 := by linarith
    have halive1 : (b.update dt).alive = true := hs5.mpr ⟨hlife, hin⟩
    rw [List.foldl_cons]
    have hres := ih hrestnn (b.update dt) hs1 (by rw [hs2, hv]) hs3 halive1
      (by rw [hs4]; linarith)
    refine ⟨hres.1, hres.2.1, hres.2.2.1, hres.2.2.2.1, ?_⟩
    rw [hres.2.2.2.2, hs4, List.sum_cons]
    ring

lemma foldl_update_zero_velocity_dead (p : ℝ × ℝ) (radius : ℝ)
    (hin : ¬ bullet_out_of_bounds p radius) :
    ∀ (dts : List ℝ), (∀ dt ∈ dts, 0 ≤ dt) →
    ∀ (b : Bullet), b.pos = p → b.velocity = (0, 0) → b.radius = radius →
      b.alive = true → 0 < b.lifetime → dts.sum = b.lifetime →
      (dts.foldl Bullet.update b).alive = false := by
  intro dts
  induction dts with
  | nil =>
    intro _ b _ _ _ _ hpos hsum
    rw [List.sum_nil] at hsum
    linarith
  | cons dt rest ih =>
    intro hnn b hp hv hr ha hpos hsum
    have hdtnn : 0 ≤ dt := hnn dt (List.mem_cons_self dt rest)
    have hrestnn : ∀ x ∈ rest, 0 ≤ x := fun x hx => hnn x (List.mem_cons_of_mem dt hx)
    rw [List.sum_cons] at hsum
    obtain ⟨hs1, hs2, hs3, hs4, hs5⟩ := Bullet.update_alive_proj b dt ha
    have hposstep : (b.pos.1 + b.velocity.1 * dt, b.pos.2 + b.velocity.2 * dt) = p := by
      rw [hp, hv]
      simp
    rw [hposstep] at hs1 hs5
    rw [hr] at hs3 hs5
    by_cases hlife : b.lifetime - dt ≤ 0
    · have hnotalive : ¬ (b.update dt).alive = true := fun hc => (hs5.mp hc).1 hlife
      have hdead : (b.update dt).alive = false := by simpa using hnotalive
      rw [List.foldl_cons, foldl_update_dead rest _ hdead]
      exact hdead
    · have halive1 : (b.update dt).alive = true := hs5.mpr ⟨hlife, hin⟩
      rw [List.foldl_cons]
      exact ih hrestnn (b.update dt) hs1 (by rw [hs2, hv]) hs3 halive1
        (by rw [hs4]; linarith) (by rw [hs4]; linarith)

/-- C8: each step of an alive bullet integrates the position by
velocity times dt, decrements the lifetime, and keeps the bullet alive
exactly while the lifetime stays positive and the position stays within
the radius-margin bounds; consequently a zero-velocity bullet spawned
in bounds is alive after any step prefix whose dt values sum to strictly
less than BULLET_LIFETIME, and dead once they sum to exactly
BULLET_LIFETIME. -/
theorem C8_projectile_lifetime :
    (∀ (b : Bullet) (dt : ℝ), b.alive = true →
      ((b.update dt).pos = (b.pos.1 + b.velocity.1 * dt, b.pos.2 + b.velocity.2 * dt) ∧
       (b.update dt).lifetime = b.lifetime - dt ∧
       ((b.update dt).alive = true ↔
         ¬ b.lifetime - dt ≤ 0 ∧ ¬ bullet_out_of_bounds (b.update dt).pos b.radius))) ∧
    (∀ (pos : ℝ × ℝ) (damage : ℤ) (owner : String) (dts : List ℝ),
        ¬ bullet_out_of_bounds pos BULLET_SIZE → (∀ dt ∈ dts, 0 ≤ dt) →
      ((∀ k : ℕ, (dts.take k).sum < BULLET_LIFETIME →
          ((dts.take k).foldl Bullet.update (mkBullet pos (0, 0) damage owner)).alive = true) ∧
       (dts.sum = BULLET_LIFETIME →
          (dts.foldl Bullet.update (mkBullet pos (0, 0) damage owner)).alive = false))) := by
  constructor
  · intro b dt h
    obtain ⟨hs1, hs2, hs3, hs4, hs5⟩ := Bullet.update_alive_proj b dt h
    refine ⟨hs1, hs4, ?_⟩
    rw [hs1]
    exact hs5
  · intro pos damage owner dts hin hnn
    constructor
    · intro k hsum
      have hnnk : ∀ dt ∈ dts.take k, 0 ≤ dt := fun dt hdt => hnn dt (List.take_subset k dts hdt)
      exact (foldl_update_zero_velocity pos BULLET_SIZE hin (dts.take k) hnnk
        (mkBullet pos (0, 0) damage owner) rfl rfl rfl rfl hsum).1
    · intro hsum
      exact foldl_update_zero_velocity_dead pos BULLET_SIZE hin dts hnn
        (mkBullet pos (0, 0) damage owner) rfl rfl rfl rfl
        (by norm_num [mkBullet, BULLET_LIFETIME]) hsum

/-- Witness for C8: a zero-velocity bullet at (100, 100) stepped with
dt values 1, 1, 1 is alive after two steps (sum 2 < 3) and dead after
three (sum 3 = lifetime). -/
theorem C8_witness :
    ¬ bullet_out_of_bounds ((100 : ℝ), (100 : ℝ)) BULLET_SIZE ∧
    (([(1 : ℝ), 1, 1].take 2).sum < BULLET_LIFETIME ∧
     ([(1 : ℝ), 1, 1] : List ℝ).sum = BULLET_LIFETIME) ∧
    ((([(1 : ℝ), 1, 1].take 2).foldl Bullet.update
        (mkBullet (100, 100) (0, 0) 5 "player")).alive = true ∧
     (([(1 : ℝ), 1, 1] : List ℝ).foldl Bullet.update
        (mkBullet (100, 100) (0, 0) 5 "player")).alive = false) := by
  have hin : ¬ bullet_out_of_bounds ((100 : ℝ), (100 : ℝ)) BULLET_SIZE := by
    norm_num [bullet_out_of_bounds, BULLET_SIZE, SCREEN_WIDTH, SCREEN_HEIGHT]
  have hnn : ∀ dt ∈ ([(1 : ℝ), 1, 1] : List ℝ), 0 ≤ dt := by
    intro dt hdt
    simp at hdt
    rw [hdt]
    norm_num
  have h2 : (([(1 : ℝ), 1, 1] : List ℝ).take 2).sum < BULLET_LIFETIME := by
    norm_num [BULLET_LIFETIME]
  have h3 : ([(1 : ℝ), 1, 1] : List ℝ).sum = BULLET_LIFETIME := by
    norm_num [BULLET_LIFETIME]
  obtain ⟨hpre, hexact⟩ :=
    C8_projectile_lifetime.2 ((100 : ℝ), (100 : ℝ)) 5 "player" [1, 1, 1] hin hnn
  exact ⟨hin, ⟨h2, h3⟩, hpre 2 h2, hexact h3⟩

/-! Claim C9: the sniper ATTACK decision and its lead-predicted aim point. -/

lemma atan2_normalize (v : ℝ × ℝ) :
    atan2 (normalize_vector v).2 (normalize_vector v).1 = atan2 v.2 v.1 := by
  unfold normalize_vector atan2
  by_cases h : Real.sqrt (v.1 * v.1 + v.2 * v.2) = 0
  · rw [if_pos h]
    have hsum : v.1 * v.1 + v.2 * v.2 ≤ 0 := Real.sqrt_eq_zero'.mp h
    have h1 : v.1 = 0 := by nlinarith [mul_self_nonneg v.1, mul_self_nonneg v.2]
    have h2 : v.2 = 0 := by nlinarith [mul_self_nonneg v.1, mul_self_nonneg v.2]
    rw [h1, h2]
  · rw [if_neg h]
    have hpos : 0 < Real.sqrt (v.1 * v.1 + v.2 * v.2) :=
      lt_of_le_of_ne (Real.sqrt_nonneg _) (Ne.symm h)
    have hmul : (⟨(v.1 / Real.sqrt (v.1 * v.1 + v.2 * v.2),
        v.2 / Real.sqrt (v.1 * v.1 + v.2 * v.2)).1,
        (v.1 / Real.sqrt (v.1 * v.1 + v.2 * v.2),
        v.2 / Real.sqrt (v.1 * v.1 + v.2 * v.2)).2⟩ : ℂ) =
        (↑(1 / Real.sqrt (v.1 * v.1 + v.2 * v.2)) : ℂ) * ⟨v.1, v.2⟩ := by
      apply Complex.ext
      · simp [Complex.mul_re]
        ring
      · simp [Complex.mul_im]
        ring
    rw [hmul, Complex.arg_real_mul _ (by positivity)]

lemma sniper_attack_branch (s : SniperState) (walls : List Rect) (tp : ℝ × ℝ)
    (hsee : can_see_player s.entity_pos s.detection_range (some tp) walls)
    (hnr : ¬ distance s.entity_pos tp < s.retreat_range)
    (hb1 : s.preferred_range - 50 < distance s.entity_pos tp)
    (hb2 : distance s.entity_pos tp < s.preferred_range + 50) :
    sniper_make_decision s walls (some tp) =
      ({ mkAIDecision with
          state := .ATTACK
          look_direction :=
            atan2 (normalize_vector
                (((get_predicted_player_position s.entity_pos (some tp) (some tp)
                    s.player_velocity_memory (1/2)).1 - s.entity_pos.1),
                 ((get_predicted_player_position s.entity_pos (some tp) (some tp)
                    s.player_velocity_memory (1/2)).2 - s.entity_pos.2))).2
              (normalize_vector
                (((get_predicted_player_position s.entity_pos (some tp) (some tp)
                    s.player_velocity_memory (1/2)).1 - s.entity_pos.1),
                 ((get_predicted_player_position s.entity_pos (some tp) (some tp)
                    s.player_velocity_memory (1/2)).2 - s.entity_pos.2))).1
          should_fire := true }, some tp) := by
  have hrcond : ¬ (distance s.entity_pos tp < s.retreat_range ∧
      can_see_player s.entity_pos s.detection_range (some tp) walls) := fun hc => hnr hc.1
  have hacond : s.preferred_range - 50 < distance s.entity_pos tp ∧
      distance s.entity_pos tp < s.preferred_range + 50 ∧
      can_see_player s.entity_pos s.detection_range (some tp) walls := ⟨hb1, hb2, hsee⟩
  simp only [sniper_make_decision, if_pos hsee, if_neg hrcond, if_pos hacond]
  simp

/-- C9 counterexample: a sniper exactly in the preferred-range band with
line of sight, whose most recent recorded target velocity is (100, 0) and
hence nonzero, still aims at exactly the instantaneous target position
(400, 0), because the averaged velocity memory cancels to zero: the
decision is ATTACK with a fire intent, but the lead-predicted aim point is
not strictly different from the target position. -/
theorem C9_counterexample :
    distance c9CounterState.entity_pos ((400 : ℝ), (0 : ℝ)) = 400 ∧
    (SNIPER_PREFERRED_RANGE - 50 < (400 : ℝ) ∧ (400 : ℝ) < SNIPER_PREFERRED_RANGE + 50) ∧
    line_of_sight c9CounterState.entity_pos ((400 : ℝ), (0 : ℝ)) [] ∧
    c9CounterState.player_velocity_memory.getLast? = some (100, 0) ∧
    ((100 : ℝ), (0 : ℝ)) ≠ ((0 : ℝ), (0 : ℝ)) ∧
    (sniper_make_decision c9CounterState [] (some (400, 0))).1.state = AIState.ATTACK ∧
    (sniper_make_decision c9CounterState [] (some (400, 0))).1.should_fire = true ∧
    get_predicted_player_position c9CounterState.entity_pos (some (400, 0)) (some (400, 0))
      c9CounterState.player_velocity_memory (1/2) = ((400 : ℝ), (0 : ℝ)) := by
  have hd : distance c9CounterState.entity_pos ((400 : ℝ), (0 : ℝ)) = 400 := by
    refine distance_eq_of_sq _ _ 400 (by norm_num) ?_
    show ((400 : ℝ) - (0, 0).1) * (400 - (0, 0).1) + ((0 : ℝ) - (0, 0).2) * (0 - (0, 0).2) =
      400 * 400
    norm_num
  have hlos : line_of_sight c9CounterState.entity_pos ((400 : ℝ), (0 : ℝ)) [] := by
    intro wall hwall
    simp at hwall
  have hsee : can_see_player c9CounterState.entity_pos c9CounterState.detection_range
      (some ((400 : ℝ), (0 : ℝ))) [] := by
    refine ⟨?_, hlos⟩
    rw [hd]
    show ¬ (400 : ℝ) > 600
    norm_num
  have hnr : ¬ distance c9CounterState.entity_pos ((400 : ℝ), (0 : ℝ)) <
      c9CounterState.retreat_range := by
    rw [hd]
    show ¬ (400 : ℝ) < SNIPER_RETREAT_RANGE
    norm_num [SNIPER_RETREAT_RANGE]
  have hb1 : c9CounterState.preferred_range - 50 <
      distance c9CounterState.entity_pos ((400 : ℝ), (0 : ℝ)) := by
    rw [hd]
    show SNIPER_PREFERRED_RANGE - 50 < (400 : ℝ)
    norm_num [SNIPER_PREFERRED_RANGE]
  have hb2 : distance c9CounterState.entity_pos ((400 : ℝ), (0 : ℝ)) <
      c9CounterState.preferred_range + 50 := by
    rw [hd]
    show (400 : ℝ) < SNIPER_PREFERRED_RANGE + 50
    norm_num [SNIPER_PREFERRED_RANGE]
  have hdec := sniper_attack_branch c9CounterState [] ((400 : ℝ), (0 : ℝ)) hsee hnr hb1 hb2
  refine ⟨hd, by norm_num [SNIPER_PREFERRED_RANGE], hlos, rfl, ?_, ?_, ?_, ?_⟩
  · intro hc
    rw [Prod.ext_iff] at hc
    norm_num at hc
  · rw [hdec]
  · rw [hdec]
  · show get_predicted_player_position ((0 : ℝ), (0 : ℝ)) _ _ [(-100, 0), (100, 0)] (1/2) = _
    norm_num [get_predicted_player_position, List.foldl, Prod.ext_iff]

/-- C9 amended: a sniper strictly inside the preferred-range band
(preferred ± 50, open) with line of sight transitions to ATTACK and issues
a fire intent aimed along the direction from the sniper to the
lead-predicted target position, and that aim point is strictly different
from the instantaneous target position whenever the average of the
recorded recent velocity samples (the last at most five entries of the
velocity memory) is nonzero. -/
theorem C9_amended_sniper_attack (s : SniperState) (walls : List Rect) (tp : ℝ × ℝ)
    (hdet : s.detection_range = 600)
    (hpref : s.preferred_range = SNIPER_PREFERRED_RANGE)
    (hret : s.retreat_range = SNIPER_RETREAT_RANGE)
    (hb1 : s.preferred_range - 50 < distance s.entity_pos tp)
    (hb2 : distance s.entity_pos tp < s.preferred_range + 50)
    (hlos : line_of_sight s.entity_pos tp walls)
    (hmem : s.player_velocity_memory ≠ [])
    (havg : (s.player_velocity_memory.drop (s.player_velocity_memory.length - 5)).foldl
        (fun acc v => (acc.1 + v.1, acc.2 + v.2)) ((0 : ℝ), (0 : ℝ)) ≠ (0, 0)) :
    (sniper_make_decision s walls (some tp)).1.state = AIState.ATTACK ∧
    (sniper_make_decision s walls (some tp)).1.should_fire = true ∧
    get_predicted_player_position s.entity_pos (some tp) (some tp)
      s.player_velocity_memory (1/2) ≠ tp ∧
    (sniper_make_decision s walls (some tp)).1.look_direction =
      atan2 ((get_predicted_player_position s.entity_pos (some tp) (some tp)
          s.player_velocity_memory (1/2)).2 - s.entity_pos.2)
        ((get_predicted_player_position s.entity_pos (some tp) (some tp)
          s.player_velocity_memory (1/2)).1 - s.entity_pos.1) := by
  have hsee : can_see_player s.entity_pos s.detection_range (some tp) walls := by
    refine ⟨?_, hlos⟩
    rw [hdet]
    rw [hpref] at hb2
    norm_num [SNIPER_PREFERRED_RANGE] at hb2
    norm_num
    linarith
  have hnr : ¬ distance s.entity_pos tp < s.retreat_range := by
    rw [hret]
    rw [hpref] at hb1
    norm_num [SNIPER_PREFERRED_RANGE] at hb1
    norm_num [SNIPER_RETREAT_RANGE]
    linarith
  have hdec := sniper_attack_branch s walls tp hsee hnr hb1 hb2
  have hcount : (0 : ℝ) < (min s.player_velocity_memory.length 5 : ℕ) := by
    have hlen : 0 < s.player_velocity_memory.length := List.length_pos.mpr hmem
    have : 0 < min s.player_velocity_memory.length 5 := lt_min hlen (by norm_num)
    exact_mod_cast this
  have hpredicted : get_predicted_player_position s.entity_pos (some tp) (some tp)
      s.player_velocity_memory (1/2) ≠ tp := by
    intro hc
    apply havg
    rw [get_predicted_player_position] at hc
    simp only [if_neg hmem] at hc
    rw [Prod.ext_iff] at hc
    simp only [add_right_eq_self] at hc
    have hc1 := hc.1
    have hc2 := hc.2
    rw [mul_eq_zero] at hc1 hc2
    rcases hc1 with hc1 | hc1
    · rcases hc2 with hc2 | hc2
      · rw [div_eq_zero_iff] at hc1 hc2
        rcases hc1 with hc1 | hc1
        · rcases hc2 with hc2 | hc2
          · exact Prod.ext hc1 hc2
          · exact absurd hc2 (by exact_mod_cast hcount.ne.symm)
        · exact absurd hc1 (by exact_mod_cast hcount.ne.symm)
      · norm_num at hc2
    · norm_num at hc1
  refine ⟨by rw [hdec], by rw [hdec], hpredicted, ?_⟩
  rw [hdec]
  show atan2 (normalize_vector _).2 (normalize_vector _).1 = _
  rw [atan2_normalize]

/-- Witness for C9 at a concrete sniper state with a single velocity
sample (50, 0): the decision is ATTACK with fire intent, and the aim
point differs from the target position. -/
theorem C9_witness :
    (SNIPER_PREFERRED_RANGE - 50 < distance c9WitnessState.entity_pos ((400 : ℝ), (0 : ℝ)) ∧
     distance c9WitnessState.entity_pos ((400 : ℝ), (0 : ℝ)) < SNIPER_PREFERRED_RANGE + 50) ∧
    (sniper_make_decision c9WitnessState [] (some (400, 0))).1.state = AIState.ATTACK ∧
    (sniper_make_decision c9WitnessState [] (some (400, 0))).1.should_fire = true ∧
    get_predicted_player_position c9WitnessState.entity_pos (some (400, 0)) (some (400, 0))
      c9WitnessState.player_velocity_memory (1/2) ≠ ((400 : ℝ), (0 : ℝ)) := by
  have hd : distance c9WitnessState.entity_pos ((400 : ℝ), (0 : ℝ)) = 400 := by
    refine distance_eq_of_sq _ _ 400 (by norm_num) ?_
    show ((400 : ℝ) - (0, 0).1) * (400 - (0, 0).1) + ((0 : ℝ) - (0, 0).2) * (0 - (0, 0).2) =
      400 * 400
    norm_num
  have hb1 : c9WitnessState.preferred_range - 50 <
      distance c9WitnessState.entity_pos ((400 : ℝ), (0 : ℝ)) := by
    rw [hd]
    show SNIPER_PREFERRED_RANGE - 50 < (400 : ℝ)
    norm_num [SNIPER_PREFERRED_RANGE]
  have hb2 : distance c9WitnessState.entity_pos ((400 : ℝ), (0 : ℝ)) <
      c9WitnessState.preferred_range + 50 := by
    rw [hd]
    show (400 : ℝ) < SNIPER_PREFERRED_RANGE + 50
    norm_num [SNIPER_PREFERRED_RANGE]
  have hlos : line_of_sight c9WitnessState.entity_pos ((400 : ℝ), (0 : ℝ)) [] := by
    intro wall hwall
    simp at hwall
  have hmem : c9WitnessState.player_velocity_memory ≠ [] := by
    show [((50 : ℝ), (0 : ℝ))] ≠ []
    simp
  have havg : (c9WitnessState.player_velocity_memory.drop
        (c9WitnessState.player_velocity_memory.length - 5)).foldl
      (fun acc v => (acc.1 + v.1, acc.2 + v.2)) ((0 : ℝ), (0 : ℝ)) ≠ (0, 0) := by
    show ([((50 : ℝ), (0 : ℝ))].drop (1 - 5)).foldl _ _ ≠ _
    norm_num [List.foldl, Prod.ext_iff]
  have := C9_amended_sniper_attack c9WitnessState [] ((400 : ℝ), (0 : ℝ))
    rfl rfl rfl hb1 hb2 hlos hmem havg
  exact ⟨⟨hb1, hb2⟩, this.1, this.2.1, this.2.2.1⟩

end DeathCircuit
